import Mathlib

/-!
# Gesture-Flow Action Execution Engine — verification development

Shallow embedding of the action model, action validator and action execution
engine of the Gesture-Flow repository (files `src/action_types.py`,
`src/action_executor.py`, `src/config.py`).

Modelling conventions:
* Python dataclasses become Lean structures / inductives; the per-type
  parameter dataclasses become the variants of `ActionParams` (the Python
  `hasattr` checks become variant tests: only `MouseActionParameters` has an
  `x` attribute, etc.).
* A serialized action (the `Dict[str, Any]` produced by `Action.to_dict` and
  consumed by `Action.from_dict`) is `ActionDict`; the dictionaries that a
  macro sequence stores are `ActionDict`s, exactly as in the source where
  `MacroActionParameters.sequence` holds raw dicts.
* Fallible Python code (constructor calls that can raise `TypeError` /
  `ValueError`, backend primitives that can raise) returns `Except String`.
* Python's bounded recursion (`RecursionError`, caught by the surrounding
  `except` handlers in `_validate_macro_action` / `_execute_macro_action`) is
  modelled with an explicit fuel parameter; exhausted fuel produces the same
  caught-exception failure result the source produces for a `RecursionError`.
* Wall-clock quantities (`time.sleep`, `execution_time`, `timestamp`,
  `datetime.now()`) are not modelled: delays are no-ops and the timestamp
  written by `__post_init__` is an abstract fixed string.  No claim depends
  on them.
* The two external input-automation libraries are abstracted as a `Backend`
  record of primitive routines that may raise; the configuration selects
  pynput (`ACTION_EXECUTION_CONFIG['input_library'] = 'pynput'`), so the
  engine-side wrapper functions (`_execute_mouse_action`, ...) are translated
  with the pynput branch taken.
* The executor state carries, besides the program state
  (`execution_history`, `emergency_stop`, the two optional callbacks), ghost
  instrumentation counters (`backendCalls`, `syncCalls`, `appends`) and a
  callback-invocation log `cbLog`; these model the "test backend stub call
  counter" observables the specification's testable properties refer to and
  are incremented exactly at backend-primitive invocation, at entry of
  `_execute_action_sync`, and inside `_add_to_history` respectively.
-/

namespace GestureFlow

/-- `ActionType` enum (`action_types.py`).  The macro constructor is named
`macroA` because `macro` is a reserved word in Lean; its string `value` is
`"macro"` as in the source. -/
inductive ActionType where
  | mouse
  | keyboard
  | application
  | macroA
  | system
deriving DecidableEq

/-- `ActionType.value` — the string payload of each enum member. -/
def ActionType.value : ActionType → String
  | .mouse => "mouse"
  | .keyboard => "keyboard"
  | .application => "application"
  | .macroA => "macro"
  | .system => "system"

/-- `ActionType(s)` — the enum constructor; `none` models the `ValueError`
raised on an unknown string. -/
def ActionType.fromValue : String → Option ActionType
  | "mouse" => some .mouse
  | "keyboard" => some .keyboard
  | "application" => some .application
  | "macro" => some .macroA
  | "system" => some .system
  | _ => none

/-- `KeyboardActionParameters.keys : Union[str, List[str]]`. -/
inductive KeysVal where
  | str (s : String)
  | list (l : List String)
deriving DecidableEq

/-- The action-parameter variants (`ActionParameters` and its dataclass
subclasses in `action_types.py`), parametric in the type `δ` of serialized
sub-actions so that the macro variant can nest `ActionDict`s.
Field defaults follow the dataclass defaults; float-valued fields
(durations, intervals, delays) are modelled as `Rat`. -/
inductive ActionParamsT (δ : Type) where
  | base
  | mouseP (x y from_x from_y to_x to_y : Option Int) (button : String)
      (clicks : Int) (duration : Rat) (scroll_direction : String) (scroll_amount : Int)
  | keyboardP (keys : KeysVal) (text : String) (modifiers : Option (List String)) (interval : Rat)
  | applicationP (path : String) (arguments : Option (List String))
      (working_directory window_title process_name : String)
  | macroP (sequence : Option (List δ)) (loop_count : Int) (delay_between_actions : Rat)

/-- A serialized action: the dictionary produced by `Action.to_dict` and
consumed by `Action.from_dict`.  Macro sequences store these. -/
inductive ActionDict where
  | mk (id : String) (type : String) (subtype : String)
      (parameters : ActionParamsT ActionDict)
      (name : String) (description : String) (enabled : Bool)
      (requires_confirmation : Bool) (timeout : Rat) (created_date : String)

/-- In-memory action parameters: the variant record held by a live `Action`
object (macro sequences still hold serialized dicts, as in the source). -/
abbrev ActionParams := ActionParamsT ActionDict

def ActionDict.id : ActionDict → String
  | .mk i _ _ _ _ _ _ _ _ _ => i

def ActionDict.type : ActionDict → String
  | .mk _ t _ _ _ _ _ _ _ _ => t

def ActionDict.subtype : ActionDict → String
  | .mk _ _ st _ _ _ _ _ _ _ => st

def ActionDict.parameters : ActionDict → ActionParams
  | .mk _ _ _ p _ _ _ _ _ _ => p

def ActionDict.name : ActionDict → String
  | .mk _ _ _ _ n _ _ _ _ _ => n

def ActionDict.description : ActionDict → String
  | .mk _ _ _ _ _ d _ _ _ _ => d

def ActionDict.enabled : ActionDict → Bool
  | .mk _ _ _ _ _ _ e _ _ _ => e

def ActionDict.requires_confirmation : ActionDict → Bool
  | .mk _ _ _ _ _ _ _ rc _ _ => rc

def ActionDict.timeout : ActionDict → Rat
  | .mk _ _ _ _ _ _ _ _ tm _ => tm

def ActionDict.created_date : ActionDict → String
  | .mk _ _ _ _ _ _ _ _ _ cd => cd

/-- The `Action` dataclass (`action_types.py`). -/
structure Action where
  id : String
  type : ActionType
  subtype : String
  parameters : ActionParams
  name : String := ""
  description : String := ""
  enabled : Bool := true
  requires_confirmation : Bool := false
  timeout : Rat := 5
  created_date : String := ""

/-- Stand-in for `datetime.now().isoformat()` written by `__post_init__`
when `created_date` is empty (the concrete clock value is never inspected). -/
def defaultNow : String := "1970-01-01T00:00:00"

/-- `Action.to_dict`: `asdict(self)` with `result['type'] = self.type.value`.
Field values (including a macro's sequence of raw dicts) are carried over
unchanged. -/
def to_dict (a : Action) : ActionDict :=
  .mk a.id a.type.value a.subtype a.parameters a.name a.description a.enabled
    a.requires_confirmation a.timeout a.created_date

/-- `Action.from_dict`: parses the type string (`ValueError` on unknown),
rebuilds the parameter dataclass for the parsed type from the parameter
dictionary (`MouseActionParameters(**params_data)` etc.).  A parameter
dictionary of a foreign shape makes the keyword-argument call raise
`TypeError`; an empty (`base`) dictionary yields all-default parameters; for
the `system` type the else-branch builds a bare `ActionParameters()`.
`__post_init__` fills an empty `created_date`. -/
def from_dict (d : ActionDict) : Except String Action := do
  let t ← match ActionType.fromValue d.type with
    | some t => Except.ok t
    | none => Except.error ("ValueError: '" ++ d.type ++ "' is not a valid ActionType")
  let p : ActionParams ← match t, d.parameters with
    | .mouse, .mouseP x y fx fy tx ty b c du sd sa =>
        Except.ok (.mouseP x y fx fy tx ty b c du sd sa)
    | .mouse, .base => Except.ok (.mouseP none none none none none none "left" 1 0 "up" 1)
    | .mouse, _ => Except.error "TypeError: unexpected keyword argument"
    | .keyboard, .keyboardP k txt m iv => Except.ok (.keyboardP k txt m iv)
    | .keyboard, .base => Except.ok (.keyboardP (.str "") "" none (1/20))
    | .keyboard, _ => Except.error "TypeError: unexpected keyword argument"
    | .application, .applicationP pa ar wd wt pn => Except.ok (.applicationP pa ar wd wt pn)
    | .application, .base => Except.ok (.applicationP "" none "" "" "")
    | .application, _ => Except.error "TypeError: unexpected keyword argument"
    | .macroA, .macroP sq lc dd => Except.ok (.macroP sq lc dd)
    | .macroA, .base => Except.ok (.macroP none 1 (1/10))
    | .macroA, _ => Except.error "TypeError: unexpected keyword argument"
    | .system, _ => Except.ok .base
  Except.ok
    { id := d.id
      type := t
      subtype := d.subtype
      parameters := p
      name := d.name
      description := d.description
      enabled := d.enabled
      requires_confirmation := d.requires_confirmation
      timeout := d.timeout
      created_date := if d.created_date = "" then defaultNow else d.created_date }

/-! ## Configuration (`config.py`) -/

/-- One entry of `ACTION_TYPES_CONFIG`: the keys every type has. -/
structure TypePolicy where
  enabled : Bool
  actions : List String

/-- The `ACTION_TYPES_CONFIG` dictionary.  The per-type extra keys
(`dangerous_keys`, `blocked_paths`, `allowed_paths`, `max_sequence_length`)
are lifted to top-level fields; the `macro` entry is the field
`macroPolicy` (`macro` is reserved in Lean). -/
structure TypesConfig where
  mouse : TypePolicy
  keyboard : TypePolicy
  application : TypePolicy
  macroPolicy : TypePolicy
  system : TypePolicy
  dangerous_keys : List String
  blocked_paths : List String
  allowed_paths : List String
  max_sequence_length : Nat

/-- `self.config.get(action.type.value, {})` — lookup of the per-type policy
(every `ActionType` value has an entry in the shipped config). -/
def TypesConfig.policyFor (c : TypesConfig) : ActionType → TypePolicy
  | .mouse => c.mouse
  | .keyboard => c.keyboard
  | .application => c.application
  | .macroA => c.macroPolicy
  | .system => c.system

/-- The shipped `ACTION_TYPES_CONFIG` from `config.py`. -/
def ACTION_TYPES_CONFIG : TypesConfig where
  mouse := ⟨true, ["click", "move_to", "drag", "scroll"]⟩
  keyboard := ⟨true, ["key_press", "key_combination", "type_text"]⟩
  application := ⟨true, ["launch", "close", "focus", "minimize", "maximize"]⟩
  macroPolicy := ⟨true, ["execute", "sequence", "loop"]⟩
  system := ⟨false, ["shutdown", "restart", "sleep", "lock"]⟩
  dangerous_keys := ["delete", "f4", "alt+f4", "ctrl+alt+del"]
  blocked_paths := []
  allowed_paths := []
  max_sequence_length := 20

/-! ## Python string helpers -/

/-- Python's substring containment `needle in hay` on lists of characters. -/
def subIn (needle : List Char) : List Char → Bool
  | [] => needle.isEmpty
  | c :: rest => needle.isPrefixOf (c :: rest) || subIn needle rest

/-- Python's `needle in hay` for strings (substring containment). -/
def pyIn (needle hay : String) : Bool := subIn needle.toList hay.toList

/-- Python `str.lower()` on one character (ASCII; all strings the program
compares are ASCII). -/
def pyLowerChar (c : Char) : Char :=
  if 65 ≤ c.toNat ∧ c.toNat ≤ 90 then Char.ofNat (c.toNat + 32) else c

/-- Python `str.lower()` (ASCII). -/
def pyLower (s : String) : String := ⟨s.data.map pyLowerChar⟩

/-- Python `str()` of the `keys` field: a string renders as itself, a list of
(quote-free) strings renders as `['a', 'b']`. -/
def pyStrKeys : KeysVal → String
  | .str s => s
  | .list l => "[" ++ String.intercalate ", " (l.map (fun k => "'" ++ k ++ "'")) ++ "]"

/-! ## ActionValidator (`action_types.py`)

The validator only ever reads `action.type`, `action.subtype` and
`action.parameters` (error messages mention `type.value` and `subtype`), so
the core is defined on those three fields; `validate_action` applies it to an
`Action`.  Recursive validation of macro sub-actions consumes fuel
(`recursionLimit` models Python's recursion limit; the `RecursionError` a
too-deep recursion raises is caught by the per-position `except` handler). -/

/-- Coordinate range check of `_validate_mouse_action`:
present and outside `[0, 10000]`. -/
def outOfRange : Option Int → Bool
  | some v => decide (v < 0 ∨ v > 10000)
  | none => false

/-- `ActionValidator._validate_mouse_action`.  Only `MouseActionParameters`
has the `x`/`y`/`button` attributes, so for any other parameter object all
checks are skipped. -/
def _validate_mouse_action (st : String) (p : ActionParams) : Bool × String :=
  match p with
  | .mouseP x y _ _ _ _ button _ _ _ _ =>
    if (st == "click" || st == "move_to" || st == "drag") && outOfRange x then
      (false, "Mouse X coordinate out of reasonable range")
    else if (st == "click" || st == "move_to" || st == "drag") && outOfRange y then
      (false, "Mouse Y coordinate out of reasonable range")
    else if !(["left", "right", "middle"].contains button) then
      (false, "Invalid mouse button: " ++ button)
    else (true, "")
  | _ => (true, "")

/-- `ActionValidator._validate_keyboard_action`.  For key_press /
key_combination the lower-cased `str(params.keys)` must not contain any
configured dangerous key as a substring (first match wins); for type_text the
text must not exceed 1000 characters.  Only `KeyboardActionParameters` has
the `keys` / `text` attributes. -/
def _validate_keyboard_action (cfg : TypesConfig) (st : String) (p : ActionParams) : Bool × String :=
  match p with
  | .keyboardP keys text _ _ =>
    let firstDangerous : Option String :=
      if st == "key_press" || st == "key_combination" then
        cfg.dangerous_keys.find? (fun dk => pyIn (pyLower dk) (pyLower (pyStrKeys keys)))
      else none
    match firstDangerous with
    | some dk => (false, "Dangerous key combination detected: " ++ dk)
    | none =>
      if st == "type_text" && text.length > 1000 then
        (false, "Text too long (max 1000 characters)")
      else (true, "")
  | _ => (true, "")

/-- `ActionValidator._validate_application_action`.  Launch requires a
non-empty path (a parameter object without a `path` attribute fails the same
way), the path must avoid every blocked substring, and must hit an allowed
substring when the allow-list is non-empty. -/
def _validate_application_action (cfg : TypesConfig) (st : String) (p : ActionParams) :
    Bool × String :=
  if st == "launch" then
    match p with
    | .applicationP path _ _ _ _ =>
      if path == "" then (false, "Application path is required for launch action")
      else
        match cfg.blocked_paths.find? (fun bp => pyIn (pyLower bp) (pyLower path)) with
        | some bp => (false, "Application path is blocked: " ++ bp)
        | none =>
          if cfg.allowed_paths.isEmpty then (true, "")
          else if cfg.allowed_paths.any (fun ap => pyIn (pyLower ap) (pyLower path)) then (true, "")
          else (false, "Application path is not in allowed list")
    | _ => (false, "Application path is required for launch action")
  else (true, "")

/-- `ActionValidator._validate_system_action`. -/
def _validate_system_action (cfg : TypesConfig) : Bool × String :=
  if !cfg.system.enabled then (false, "System actions are disabled for security")
  else (true, "")

/-- The per-position loop of `_validate_macro_action`: deserialize each
sequence entry (`except` → position-indexed "Invalid action data" failure),
validate it recursively (failure → position-indexed "Invalid action"
failure).  `recur` is the recursive validator; `none` models exhausted
recursion depth (the `RecursionError` is caught by the same handler). -/
def validateSeq (recur : Option (ActionType → String → ActionParams → Bool × String)) :
    List ActionDict → Nat → Bool × String
  | [], _ => (true, "")
  | d :: rest, i =>
    match recur with
    | none =>
      (false, "Invalid action data at position " ++ toString (i + 1) ++
        ": maximum recursion depth exceeded")
    | some validate =>
      match from_dict d with
      | .error e => (false, "Invalid action data at position " ++ toString (i + 1) ++ ": " ++ e)
      | .ok sub =>
        match validate sub.type sub.subtype sub.parameters with
        | (false, err) => (false, "Invalid action at position " ++ toString (i + 1) ++ ": " ++ err)
        | (true, _) => validateSeq recur rest (i + 1)

/-- `ActionValidator._validate_macro_action`: with a truthy (present,
non-empty) sequence, enforce the maximum length and validate every entry;
otherwise succeed. -/
def _validate_macro_action (cfg : TypesConfig)
    (recur : Option (ActionType → String → ActionParams → Bool × String))
    (p : ActionParams) : Bool × String :=
  match p with
  | .macroP (some (d :: ds)) _ _ =>
    if (d :: ds).length > cfg.max_sequence_length then
      (false, "Macro sequence too long (max " ++ toString cfg.max_sequence_length ++ " actions)")
    else validateSeq recur (d :: ds) 0
  | _ => (true, "")

/-- The type-specific dispatch block of `ActionValidator.validate_action`
(`if action.type == ActionType.MOUSE: ...` etc.; the fall-through
`return True, ""` is unreachable since the five types are exhaustive). -/
def typeSpecific (cfg : TypesConfig)
    (recur : Option (ActionType → String → ActionParams → Bool × String))
    (t : ActionType) (st : String) (p : ActionParams) : Bool × String :=
  match t with
  | .mouse => _validate_mouse_action st p
  | .keyboard => _validate_keyboard_action cfg st p
  | .application => _validate_application_action cfg st p
  | .macroA => _validate_macro_action cfg recur p
  | .system => _validate_system_action cfg

/-- `ActionValidator.validate_action`, on the three fields it reads:
type enabled, subtype allowed, then the type-specific check. -/
def validateTop (cfg : TypesConfig)
    (recur : Option (ActionType → String → ActionParams → Bool × String))
    (t : ActionType) (st : String) (p : ActionParams) : Bool × String :=
  let pol := cfg.policyFor t
  if !pol.enabled then
    (false, "Action type '" ++ t.value ++ "' is disabled")
  else if !(pol.actions.contains st) then
    (false, "Action subtype '" ++ st ++ "' is not allowed for type '" ++ t.value ++ "'")
  else
    typeSpecific cfg recur t st p

/-- Fueled recursive validator: each nesting level of macro sub-action
validation consumes one unit. -/
def validateCore (cfg : TypesConfig) : Nat → ActionType → String → ActionParams → Bool × String
  | 0 => validateTop cfg none
  | fuel + 1 => validateTop cfg (some (validateCore cfg fuel))

/-- Python's default recursion limit, the depth bound on recursive macro
validation / execution. -/
def recursionLimit : Nat := 1000

/-- `ActionValidator.validate_action`. -/
def validate_action (cfg : TypesConfig) (a : Action) : Bool × String :=
  validateCore cfg recursionLimit a.type a.subtype a.parameters

/-! ## ActionExecutor (`action_executor.py`) -/

/-- `ActionExecutionResult` (success flag, message, action id, error code;
`execution_time` and `timestamp` are wall-clock values, not modelled). -/
structure ExecutionResultM where
  success : Bool
  message : String
  action_id : String
  error_code : String
deriving DecidableEq

/-- One entry of `self.execution_history`: the serialized action together
with the result fields `_add_to_history` stores. -/
structure HistoryEntry where
  action : ActionDict
  result : ExecutionResultM

/-- The mutable executor state, plus ghost observables: `backendCalls`
counts backend-primitive invocations (the spec's "test backend stub call
counter"), `syncCalls` counts `_execute_action_sync` invocations, `appends`
counts `_add_to_history` invocations, and `cbLog` records every callback
invocation as `(viaOnExecuted?, action id)`.  `on_action_executed` /
`on_action_failed` say whether the corresponding optional callback is set. -/
structure ExecutorSt where
  execution_history : List HistoryEntry
  emergency_stop : Bool
  on_action_executed : Bool
  on_action_failed : Bool
  backendCalls : Nat
  syncCalls : Nat
  appends : Nat
  cbLog : List (Bool × String)

/-- Outcome of `subprocess.Popen` inside `_launch_application`, with the
exception classes the source distinguishes. -/
inductive PopenOutcome where
  | ok
  | fileNotFound
  | permissionError
  | err (msg : String)

/-- The selected input-automation backend (pynput, per
`ACTION_EXECUTION_CONFIG['input_library']`): the library-level primitive
routines, each of which either returns a `(success, message)` pair or raises
(`Except.error` carries `str(e)`). -/
structure Backend where
  mouse_pynput : String → ActionParams → Except String (Bool × String)
  keyboard_pynput : String → ActionParams → Except String (Bool × String)
  popen : ActionParams → PopenOutcome

/-- `self.config.get('max_action_history', 1000)`: the key is absent from
`ACTION_EXECUTION_CONFIG`, so the default 1000 applies. -/
def max_action_history : Nat := 1000

/-- Python's `lst[-m:]`: the last `m` elements, the whole list when `m = 0`
(`lst[-0:]` is `lst[0:]`). -/
def pyTakeLast (m : Nat) (l : List HistoryEntry) : List HistoryEntry :=
  if m = 0 then l else l.drop (l.length - m)

/-- `ActionExecutor._add_to_history`: append the `(action, result)` entry,
then trim to the last `maxHistory` entries when over the bound. -/
def _add_to_history (maxHistory : Nat) (a : Action) (r : ExecutionResultM)
    (s : ExecutorSt) : ExecutorSt :=
  let h := s.execution_history ++ [⟨to_dict a, r⟩]
  let h' := if h.length > maxHistory then pyTakeLast maxHistory h else h
  { s with execution_history := h', appends := s.appends + 1 }

/-- The callback block of `_execute_action_sync`'s happy path:
`if success and self.on_action_executed: ... elif not success and
self.on_action_failed: ...`. -/
def fireCallbacks (a : Action) (r : ExecutionResultM) (s : ExecutorSt) : ExecutorSt :=
  if r.success && s.on_action_executed then
    { s with cbLog := s.cbLog ++ [(true, a.id)] }
  else if !r.success && s.on_action_failed then
    { s with cbLog := s.cbLog ++ [(false, a.id)] }
  else s

/-- The callback call in `_execute_action_sync`'s `except` handler:
`if self.on_action_failed: ...`. -/
def fireFailed (a : Action) (s : ExecutorSt) : ExecutorSt :=
  if s.on_action_failed then { s with cbLog := s.cbLog ++ [(false, a.id)] } else s

/-- `ActionExecutor._execute_mouse_action` (pynput selected): route to the
library routine, converting any exception into a
`(False, "Mouse action failed: ...")` pair.  The ghost `backendCalls`
counter records the backend invocation. -/
def _execute_mouse_action (bk : Backend) (a : Action) (s : ExecutorSt) :
    (Bool × String) × ExecutorSt :=
  let s1 := { s with backendCalls := s.backendCalls + 1 }
  match bk.mouse_pynput a.subtype a.parameters with
  | .ok r => (r, s1)
  | .error e => ((false, "Mouse action failed: " ++ e), s1)

/-- `ActionExecutor._execute_keyboard_action` (pynput selected). -/
def _execute_keyboard_action (bk : Backend) (a : Action) (s : ExecutorSt) :
    (Bool × String) × ExecutorSt :=
  let s1 := { s with backendCalls := s.backendCalls + 1 }
  match bk.keyboard_pynput a.subtype a.parameters with
  | .ok r => (r, s1)
  | .error e => ((false, "Keyboard action failed: " ++ e), s1)

/-- `ActionExecutor._launch_application`. -/
def _launch_application (bk : Backend) (p : ActionParams) (s : ExecutorSt) :
    (Bool × String) × ExecutorSt :=
  match p with
  | .applicationP path _ _ _ _ =>
    if path == "" then ((false, "Application path is required"), s)
    else
      let s1 := { s with backendCalls := s.backendCalls + 1 }
      match bk.popen p with
      | .ok => ((true, "Application launched: " ++ path), s1)
      | .fileNotFound => ((false, "Application not found: " ++ path), s1)
      | .permissionError => ((false, "Permission denied: " ++ path), s1)
      | .err e => ((false, "Failed to launch application: " ++ e), s1)
  | _ =>
    -- `params.path` on a foreign parameter object raises `AttributeError`,
    -- caught by `_execute_application_action`'s handler.
    ((false, "Application action failed: AttributeError"), s)

/-- `ActionExecutor._execute_application_action`. -/
def _execute_application_action (bk : Backend) (a : Action) (s : ExecutorSt) :
    (Bool × String) × ExecutorSt :=
  if a.subtype == "launch" then _launch_application bk a.parameters s
  else if a.subtype == "close" then ((false, "Application close not implemented yet"), s)
  else if a.subtype == "focus" then ((false, "Application focus not implemented yet"), s)
  else ((false, "Unsupported application action: " ++ a.subtype), s)

/-- The nested loop body of `_execute_macro_action` over one pass of the
sequence: check the interlock, deserialize (`except` → caught "Macro
execution failed" result), dispatch synchronously via `recur`, stop at the
first failing sub-action.  `recur = none` models exhausted recursion depth
(`RecursionError`, caught by the same handler).  Returns `Sum.inl` for an
early exit and `Sum.inr executedCount` to continue with the next loop. -/
def macroSteps (recur : Option (Action → ExecutorSt → ExecutionResultM × ExecutorSt)) :
    List ActionDict → Nat → Nat → Nat → ExecutorSt → ((Bool × String) ⊕ Nat) × ExecutorSt
  | [], _, _, executed, s => (.inr executed, s)
  | d :: rest, i, loopIdx, executed, s =>
    if s.emergency_stop then
      (.inl (false, "Macro stopped by emergency stop after " ++ toString executed ++ " actions"), s)
    else
      match from_dict d with
      | .error e => (.inl (false, "Macro execution failed: " ++ e), s)
      | .ok sub =>
        match recur with
        | none => (.inl (false, "Macro execution failed: maximum recursion depth exceeded"), s)
        | some subExec =>
          let (r, s') := subExec sub s
          if !r.success then
            (.inl (false, "Macro failed at action " ++ toString (i + 1) ++ " (loop " ++
              toString (loopIdx + 1) ++ "): " ++ r.message), s')
          else macroSteps recur rest (i + 1) loopIdx (executed + 1) s'

/-- The outer `for loop in range(params.loop_count)` of
`_execute_macro_action`. -/
def macroLoops (recur : Option (Action → ExecutorSt → ExecutionResultM × ExecutorSt))
    (seq : List ActionDict) : Nat → Nat → Nat → ExecutorSt → (Bool × String) × ExecutorSt
  | 0, _, executed, s =>
    ((true, "Macro executed successfully: " ++ toString executed ++ " actions"), s)
  | n + 1, loopIdx, executed, s =>
    match macroSteps recur seq 0 loopIdx executed s with
    | (.inl early, s') => (early, s')
    | (.inr executed', s') => macroLoops recur seq n (loopIdx + 1) executed' s'

/-- `ActionExecutor._execute_macro_action`: an absent or empty sequence
fails immediately; a parameter object without a `sequence` attribute raises
`AttributeError` (escaping to `_execute_action_sync`'s handler, hence
`Except.error`); otherwise run `loop_count` passes (`range` of a
non-positive count is empty). -/
def _execute_macro_action
    (recur : Option (Action → ExecutorSt → ExecutionResultM × ExecutorSt))
    (a : Action) (s : ExecutorSt) : Except String (Bool × String) × ExecutorSt :=
  match a.parameters with
  | .macroP oseq loop_count _ =>
    match oseq with
    | none => (.ok (false, "Macro sequence is empty"), s)
    | some [] => (.ok (false, "Macro sequence is empty"), s)
    | some (d :: ds) =>
      let (r, s') := macroLoops recur (d :: ds) loop_count.toNat 0 0 s
      (.ok r, s')
  | _ => (.error "AttributeError: parameters object has no attribute sequence", s)

/-- The type dispatch of `_execute_action_sync`
(`if action.type == ActionType.MOUSE: ... elif ... else ...`); the `else`
arm covers the system type. -/
def dispatchByType (bk : Backend)
    (recur : Option (Action → ExecutorSt → ExecutionResultM × ExecutorSt))
    (a : Action) (s : ExecutorSt) : Except String (Bool × String) × ExecutorSt :=
  match a.type with
  | .mouse =>
    let (r, s') := _execute_mouse_action bk a s
    (.ok r, s')
  | .keyboard =>
    let (r, s') := _execute_keyboard_action bk a s
    (.ok r, s')
  | .application =>
    let (r, s') := _execute_application_action bk a s
    (.ok r, s')
  | .macroA => _execute_macro_action recur a s
  | .system => (.ok (false, "Unsupported action type: " ++ a.type.value), s)

/-- The tail of `_execute_action_sync`: wrap the branch outcome into exactly
one `ActionExecutionResult` (the `except` handler converts an escaped
exception into an `EXECUTION_ERROR` result), append it to history and fire
the matching callback. -/
def syncFinish (a : Action) (outS : Except String (Bool × String) × ExecutorSt) :
    ExecutionResultM × ExecutorSt :=
  match outS with
  | (.ok (succ, msg), s1) =>
    let result : ExecutionResultM := ⟨succ, msg, a.id, ""⟩
    let s2 := _add_to_history max_action_history a result s1
    (result, fireCallbacks a result s2)
  | (.error e, s1) =>
    let result : ExecutionResultM := ⟨false, "Execution error: " ++ e, a.id, "EXECUTION_ERROR"⟩
    let s2 := _add_to_history max_action_history a result s1
    (result, fireFailed a s2)

/-- One level of `ActionExecutor._execute_action_sync`: count the call,
branch on the action type, wrap the outcome.  `recur` is the recursive
dispatcher used by macro sub-actions. -/
def syncTop (bk : Backend)
    (recur : Option (Action → ExecutorSt → ExecutionResultM × ExecutorSt))
    (a : Action) (s : ExecutorSt) : ExecutionResultM × ExecutorSt :=
  syncFinish a (dispatchByType bk recur a { s with syncCalls := s.syncCalls + 1 })

/-- `ActionExecutor._execute_action_sync`, fueled on macro nesting depth. -/
def _execute_action_sync (bk : Backend) : Nat → Action → ExecutorSt → ExecutionResultM × ExecutorSt
  | 0 => syncTop bk none
  | fuel + 1 => syncTop bk (some (_execute_action_sync bk fuel))

/-- `ActionExecutor.execute_action`: validate (failure → immediate
`VALIDATION_ERROR` result, no further effect), check the emergency-stop
interlock (engaged → immediate `EMERGENCY_STOP` result, no further effect),
otherwise dispatch via `_execute_action_sync` — the async path submits the
same primitive to the worker pool, and the returned completed future is
modelled by its resolved result. -/
def execute_action (cfg : TypesConfig) (bk : Backend) (fuel : Nat) (a : Action)
    (s : ExecutorSt) : ExecutionResultM × ExecutorSt :=
  match validate_action cfg a with
  | (false, error_message) =>
    (⟨false, "Validation failed: " ++ error_message, a.id, "VALIDATION_ERROR"⟩, s)
  | (true, _) =>
    if s.emergency_stop then
      (⟨false, "Emergency stop activated", a.id, "EMERGENCY_STOP"⟩, s)
    else
      _execute_action_sync bk fuel a s

/-- `ActionExecutor.emergency_stop_all`. -/
def emergency_stop_all (s : ExecutorSt) : ExecutorSt := { s with emergency_stop := true }

/-- `ActionExecutor.resume_execution`. -/
def resume_execution (s : ExecutorSt) : ExecutorSt := { s with emergency_stop := false }

/-! ## Concrete fixtures used by the theorems below -/

/-- A backend whose primitives all succeed. -/
def bkOk : Backend where
  mouse_pynput := fun _ _ => .ok (true, "ok")
  keyboard_pynput := fun _ _ => .ok (true, "ok")
  popen := fun _ => .ok

/-- A backend whose mouse primitive raises. -/
def bkMouseRaises : Backend where
  mouse_pynput := fun _ _ => .error "boom"
  keyboard_pynput := fun _ _ => .ok (true, "ok")
  popen := fun _ => .ok

/-- A backend whose mouse primitive reports failure exactly for the click at
`x = 2` (used for the macro scenario whose second sub-action always fails). -/
def bkStep2Fails : Backend where
  mouse_pynput := fun _ p =>
    match p with
    | .mouseP (some 2) _ _ _ _ _ _ _ _ _ _ => .ok (false, "stub failure")
    | _ => .ok (true, "ok")
  keyboard_pynput := fun _ _ => .ok (true, "ok")
  popen := fun _ => .ok

/-- Fresh executor state: empty history, interlock clear, both callbacks
installed, all ghost counters zero. -/
def st0 : ExecutorSt where
  execution_history := []
  emergency_stop := false
  on_action_executed := true
  on_action_failed := true
  backendCalls := 0
  syncCalls := 0
  appends := 0
  cbLog := []

/-- `st0` with the emergency-stop interlock engaged. -/
def stEmg : ExecutorSt := { st0 with emergency_stop := true }

/-- A system action (the system type is disabled by the shipped policy, so
this action always fails validation). -/
def sysAct : Action where
  id := "s1"
  type := .system
  subtype := "lock"
  parameters := .base

/-- A plain valid mouse click at `(10, 10)`. -/
def clickAct : Action where
  id := "m0"
  type := .mouse
  subtype := "click"
  parameters := .mouseP (some 10) (some 10) none none none none "left" 1 0 "up" 1

/-- Keyboard action `keys=["f4"]`, `modifiers=["alt"]` (claim C7's scenario). -/
def altF4Act : Action where
  id := "k1"
  type := .keyboard
  subtype := "key_combination"
  parameters := .keyboardP (.list ["f4"]) "" (some ["alt"]) (1/20)

/-- The shipped config with the dangerous-key deny-list replaced by just
`["alt+f4"]`. -/
def cfgOnlyAltF4 : TypesConfig := { ACTION_TYPES_CONFIG with dangerous_keys := ["alt+f4"] }

/-- A drag whose `from_x` and `to_x` are present and far outside
`[0, 10000]` (claim C8's scenario; `x`/`y` themselves are absent). -/
def dragOutAct : Action where
  id := "m1"
  type := .mouse
  subtype := "drag"
  parameters := .mouseP none none (some (-5)) (some 3) (some 20000) (some 3) "left" 1 0 "up" 1

/-- A mouse action built from explicit field values (used to quantify over
mouse parameters). -/
def mkMouseAct (st : String) (x y fx fy tx ty : Option Int) (b : String)
    (c : Int) (du : Rat) (sd : String) (sa : Int) : Action where
  id := "m"
  type := .mouse
  subtype := st
  parameters := .mouseP x y fx fy tx ty b c du sd sa

/-- A serialized valid mouse click at `(n, 0)`. -/
def clickDict (n : Int) : ActionDict :=
  .mk ("c" ++ toString n) "mouse" "click"
    (.mouseP (some n) (some 0) none none none none "left" 1 0 "up" 1)
    "" "" true false 5 "d"

/-- A macro with `loop_count = 2` over a 3-element sequence of clicks at
`x = 1, 2, 3` (under `bkStep2Fails` the second sub-action always fails). -/
def macro2x3 : Action where
  id := "mac"
  type := .macroA
  subtype := "execute"
  parameters := .macroP (some [clickDict 1, clickDict 2, clickDict 3]) 2 (1/10)

/-- A macro whose sequence is empty. -/
def macroEmptyAct : Action where
  id := "me"
  type := .macroA
  subtype := "execute"
  parameters := .macroP (some []) 2 (1/10)

/-- Unfolding `validate_action` one recursion level. -/
theorem validate_action_unfold (cfg : TypesConfig) (a : Action) :
    validate_action cfg a =
      validateTop cfg (some (validateCore cfg 999)) a.type a.subtype a.parameters := rfl

/-! ## Claim C1 -/

/-- C1: for every action the validator rejects, `execute_action` returns a
result with `success = false` and `errorCode = VALIDATION_ERROR` (message
`"Validation failed: ..."`), no backend routine is invoked, and the
execution history — indeed the whole executor state — is left unchanged. -/
theorem c1_validation_failure_short_circuit :
    ∀ (cfg : TypesConfig) (bk : Backend) (fuel : Nat) (a : Action) (s : ExecutorSt)
      (msg : String) (r : ExecutionResultM) (s' : ExecutorSt),
    validate_action cfg a = (false, msg) →
    execute_action cfg bk fuel a s = (r, s') →
    r.success = false ∧ r.error_code = "VALIDATION_ERROR" ∧
    r.message = "Validation failed: " ++ msg ∧
    s'.execution_history = s.execution_history ∧
    s'.backendCalls = s.backendCalls ∧ s'.syncCalls = s.syncCalls ∧ s' = s := by
  intro cfg bk fuel a s msg r s' hval hex
  unfold execute_action at hex
  rw [hval] at hex
  cases hex
  exact ⟨rfl, rfl, rfl, rfl, rfl, rfl, rfl⟩

/-- Witness for C1 at the concrete disabled system action. -/
theorem c1_witness :
    (execute_action ACTION_TYPES_CONFIG bkOk 5 sysAct st0).1.success = false ∧
    (execute_action ACTION_TYPES_CONFIG bkOk 5 sysAct st0).1.error_code = "VALIDATION_ERROR" ∧
    (execute_action ACTION_TYPES_CONFIG bkOk 5 sysAct st0).2 = st0 := by
  have h := c1_validation_failure_short_circuit ACTION_TYPES_CONFIG bkOk 5 sysAct st0
    "Action type 'system' is disabled"
    (execute_action ACTION_TYPES_CONFIG bkOk 5 sysAct st0).1
    (execute_action ACTION_TYPES_CONFIG bkOk 5 sysAct st0).2
    (by decide) rfl
  exact ⟨h.1, h.2.1, h.2.2.2.2.2.2⟩

/-! ## Claim C2 -/

/-- Counterexample to C2 as stated: the emergency-stop check runs *after*
validation, so an invalid action submitted while the interlock is engaged
returns `VALIDATION_ERROR`, not `EMERGENCY_STOP`. -/
theorem c2_counterexample :
    stEmg.emergency_stop = true ∧
    (execute_action ACTION_TYPES_CONFIG bkOk 5 sysAct stEmg).1.error_code = "VALIDATION_ERROR" ∧
    ¬ (execute_action ACTION_TYPES_CONFIG bkOk 5 sysAct stEmg).1.error_code = "EMERGENCY_STOP" := by
  decide

/-- C2 (amended): every action that *passes validation* and is submitted
while the interlock is engaged returns `success = false`,
`errorCode = EMERGENCY_STOP`, with no backend invocation and no state
change; `resume_execution` clears the interlock and `emergency_stop_all`
sets it. -/
theorem c2_amended_emergency_stop :
    (∀ (cfg : TypesConfig) (bk : Backend) (fuel : Nat) (a : Action) (s : ExecutorSt)
      (r : ExecutionResultM) (s' : ExecutorSt),
      (validate_action cfg a).1 = true → s.emergency_stop = true →
      execute_action cfg bk fuel a s = (r, s') →
      r.success = false ∧ r.error_code = "EMERGENCY_STOP" ∧
      r.message = "Emergency stop activated" ∧ s' = s) ∧
    (∀ s, (resume_execution s).emergency_stop = false) ∧
    (∀ s, (emergency_stop_all s).emergency_stop = true) := by
  refine ⟨?_, fun _ => rfl, fun _ => rfl⟩
  intro cfg bk fuel a s r s' hval hstop hex
  unfold execute_action at hex
  rcases hv : validate_action cfg a with ⟨ok, m⟩
  rw [hv] at hval hex
  simp at hval
  subst hval
  rw [hstop] at hex
  simp at hex
  exact ⟨hex.1 ▸ rfl, hex.1 ▸ rfl, hex.1 ▸ rfl, hex.2.symm⟩

/-- Witness for the amended C2 at a concrete valid click under the engaged
interlock. -/
theorem c2_amended_witness :
    (validate_action ACTION_TYPES_CONFIG clickAct).1 = true ∧
    (execute_action ACTION_TYPES_CONFIG bkOk 5 clickAct stEmg).1.error_code = "EMERGENCY_STOP" ∧
    (execute_action ACTION_TYPES_CONFIG bkOk 5 clickAct stEmg).2 = stEmg := by
  have h := c2_amended_emergency_stop.1 ACTION_TYPES_CONFIG bkOk 5 clickAct stEmg
    (execute_action ACTION_TYPES_CONFIG bkOk 5 clickAct stEmg).1
    (execute_action ACTION_TYPES_CONFIG bkOk 5 clickAct stEmg).2
    (by decide) rfl rfl
  exact ⟨by decide, h.2.1, h.2.2.2⟩

/-! ## Claim C4 -/

/-- Does this parameter object have the macro (`sequence`) shape? -/
def ActionParamsT.isMacroShape {δ : Type} : ActionParamsT δ → Bool
  | .macroP _ _ _ => true
  | _ => false

/-- Counterexample to C4 as stated: a raising mouse backend primitive is
caught one level below the dispatch primitive (inside
`_execute_mouse_action`), so the returned failed result carries an *empty*
`errorCode`, not `EXECUTION_ERROR` (the message does embed the exception
text). -/
theorem c4_counterexample :
    (_execute_action_sync bkMouseRaises 5 clickAct st0).1.success = false ∧
    (_execute_action_sync bkMouseRaises 5 clickAct st0).1.message = "Mouse action failed: boom" ∧
    (_execute_action_sync bkMouseRaises 5 clickAct st0).1.error_code = "" ∧
    ¬ (_execute_action_sync bkMouseRaises 5 clickAct st0).1.error_code = "EXECUTION_ERROR" := by
  decide

/-- C4 (amended): backend exceptions never escape
`_execute_action_sync`, but mouse/keyboard backend exceptions are caught by
the per-type wrapper and yield a failed result with *empty* `errorCode`
whose message carries the exception text; `errorCode = EXECUTION_ERROR`
arises only when an exception escapes to the dispatch primitive itself
(e.g. a macro-typed action whose parameters lack the `sequence`
attribute). -/
theorem c4_amended_exception_containment :
    (∀ (bk : Backend) (fuel : Nat) (a : Action) (s : ExecutorSt) (e : String)
      (r : ExecutionResultM) (s' : ExecutorSt),
      a.type = .mouse → bk.mouse_pynput a.subtype a.parameters = .error e →
      _execute_action_sync bk fuel a s = (r, s') →
      r.success = false ∧ r.message = "Mouse action failed: " ++ e ∧ r.error_code = "") ∧
    (∀ (bk : Backend) (fuel : Nat) (a : Action) (s : ExecutorSt) (e : String)
      (r : ExecutionResultM) (s' : ExecutorSt),
      a.type = .keyboard → bk.keyboard_pynput a.subtype a.parameters = .error e →
      _execute_action_sync bk fuel a s = (r, s') →
      r.success = false ∧ r.message = "Keyboard action failed: " ++ e ∧ r.error_code = "") ∧
    (∀ (bk : Backend) (fuel : Nat) (a : Action) (s : ExecutorSt)
      (r : ExecutionResultM) (s' : ExecutorSt),
      a.type = .macroA → a.parameters.isMacroShape = false →
      _execute_action_sync bk fuel a s = (r, s') →
      r.success = false ∧ r.error_code = "EXECUTION_ERROR") := by
  refine ⟨?_, ?_, ?_⟩
  · intro bk fuel a s e r s' hty hbk hex
    have hcase : ∀ recur, syncTop bk recur a s = (r, s') →
        r.success = false ∧ r.message = "Mouse action failed: " ++ e ∧ r.error_code = "" := by
      intro recur hex
      unfold syncTop dispatchByType syncFinish _execute_mouse_action at hex
      rw [hty] at hex
      simp only [] at hex
      rw [hbk] at hex
      simp at hex
      obtain ⟨h1, h2⟩ := hex
      subst h1
      exact ⟨rfl, rfl, rfl⟩
    cases fuel with
    | zero => exact hcase none hex
    | succ n => exact hcase _ hex
  · intro bk fuel a s e r s' hty hbk hex
    have hcase : ∀ recur, syncTop bk recur a s = (r, s') →
        r.success = false ∧ r.message = "Keyboard action failed: " ++ e ∧ r.error_code = "" := by
      intro recur hex
      unfold syncTop dispatchByType syncFinish _execute_keyboard_action at hex
      rw [hty] at hex
      simp only [] at hex
      rw [hbk] at hex
      simp at hex
      obtain ⟨h1, h2⟩ := hex
      subst h1
      exact ⟨rfl, rfl, rfl⟩
    cases fuel with
    | zero => exact hcase none hex
    | succ n => exact hcase _ hex
  · intro bk fuel a s r s' hty hshape hex
    have hcase : ∀ recur, syncTop bk recur a s = (r, s') →
        r.success = false ∧ r.error_code = "EXECUTION_ERROR" := by
      intro recur hex
      unfold syncTop dispatchByType syncFinish _execute_macro_action at hex
      rw [hty] at hex
      rcases hp : a.parameters with _ | ⟨x, y, fx, fy, tx, ty, b, c, du, sd, sa⟩ |
        ⟨k, txt, m, iv⟩ | ⟨pa, ar, wd, wt, pn⟩ | ⟨sq, lc, dd⟩ <;>
        rw [hp] at hex hshape <;> simp [ActionParamsT.isMacroShape] at hshape hex <;>
        (obtain ⟨h1, h2⟩ := hex; subst h1; exact ⟨rfl, rfl⟩)
    cases fuel with
    | zero => exact hcase none hex
    | succ n => exact hcase _ hex

/-- Witness for the amended C4 at the raising mouse backend. -/
theorem c4_amended_witness :
    (_execute_action_sync bkMouseRaises 5 clickAct st0).1.message = "Mouse action failed: boom" ∧
    (_execute_action_sync bkMouseRaises 5 clickAct st0).1.error_code = "" := by
  have h := c4_amended_exception_containment.1 bkMouseRaises 5 clickAct st0 "boom"
    (_execute_action_sync bkMouseRaises 5 clickAct st0).1
    (_execute_action_sync bkMouseRaises 5 clickAct st0).2
    rfl rfl rfl
  exact ⟨h.2.1, h.2.2⟩

/-! ## Claim C5 -/

/-- C5: for any bound `m ≥ 1` (the configured value is the default 1000),
after `_add_to_history` the history length never exceeds `m`, the resulting
history is a suffix of the old history plus the new entry (so eviction drops
the oldest entries first and preserves the order of survivors), and the new
entry is always the last one. -/
theorem c5_history_bound_fifo :
    ∀ (m : Nat) (a : Action) (r : ExecutionResultM) (s : ExecutorSt), 1 ≤ m →
    (_add_to_history m a r s).execution_history.length ≤ m ∧
    (_add_to_history m a r s).execution_history <:+
      (s.execution_history ++ [⟨to_dict a, r⟩]) ∧
    (_add_to_history m a r s).execution_history.getLast? = some ⟨to_dict a, r⟩ ∧
    max_action_history = 1000 := by
  intro m a r s hm
  have hh : (_add_to_history m a r s).execution_history =
      (if (s.execution_history ++ [(⟨to_dict a, r⟩ : HistoryEntry)]).length > m
        then pyTakeLast m (s.execution_history ++ [⟨to_dict a, r⟩])
        else s.execution_history ++ [⟨to_dict a, r⟩]) := rfl
  rw [hh]
  by_cases hc : (s.execution_history ++ [(⟨to_dict a, r⟩ : HistoryEntry)]).length > m
  · rw [if_pos hc]
    unfold pyTakeLast
    rw [if_neg (by omega : ¬ m = 0)]
    have hlen : (s.execution_history ++ [(⟨to_dict a, r⟩ : HistoryEntry)]).length
        = s.execution_history.length + 1 := by simp
    refine ⟨?_, List.drop_suffix _ _, ?_, rfl⟩
    · rw [List.length_drop]
      omega
    · have hle : (s.execution_history ++ [(⟨to_dict a, r⟩ : HistoryEntry)]).length - m
          ≤ s.execution_history.length := by omega
      rw [List.drop_append_of_le_length hle]
      exact List.getLast?_concat _
  · rw [if_neg hc]
    have hlen : (s.execution_history ++ [(⟨to_dict a, r⟩ : HistoryEntry)]).length
        = s.execution_history.length + 1 := by simp
    exact ⟨by omega, List.suffix_refl _, List.getLast?_concat _, rfl⟩

/-- Witness for C5 at the configured bound and a concrete entry. -/
theorem c5_witness :
    (_add_to_history max_action_history clickAct ⟨true, "ok", "m0", ""⟩ st0).execution_history.length
      ≤ max_action_history ∧ max_action_history = 1000 := by
  have h := c5_history_bound_fifo max_action_history clickAct ⟨true, "ok", "m0", ""⟩ st0 (by decide)
  exact ⟨h.1, h.2.2.2⟩

/-! ## Claim C6 -/

/-- C6: for the macro with `loopCount = 2` over a 3-element sequence whose
second sub-action always fails, dispatch performs exactly 2 sub-action
dispatches (`backendCalls = 2`; `syncCalls = 3` counts the macro's own call
plus the two sub-dispatches) and returns a single failed result whose
message reports the failing position: `"Macro failed at action 2 (loop 1):
..."` — the reported number 2 equals the number of executed sub-actions in
this scenario (the source reports the 1-based failing position and loop
index here; the cumulative `executedCount` appears only in the
emergency-stop and success messages). -/
theorem c6_macro_two_loops_three_steps :
    (_execute_action_sync bkStep2Fails 5 macro2x3 st0).1.success = false ∧
    (_execute_action_sync bkStep2Fails 5 macro2x3 st0).1.message =
      "Macro failed at action 2 (loop 1): stub failure" ∧
    (_execute_action_sync bkStep2Fails 5 macro2x3 st0).2.backendCalls = 2 ∧
    (_execute_action_sync bkStep2Fails 5 macro2x3 st0).2.syncCalls = 3 ∧
    (_execute_action_sync bkStep2Fails 5 macro2x3 st0).2.appends = 3 := by
  decide

/-! ## Claim C7 -/

/-- Counterexample to C7 as stated: with a deny-list containing exactly
`"alt+f4"`, the keyboard action `keys=["f4"]`, `modifiers=["alt"]` *passes*
validation — the validator matches deny entries against
`str(params.keys).lower()` = `"['f4']"` only, and modifiers are never part
of the matched string. -/
theorem c7_counterexample :
    "alt+f4" ∈ cfgOnlyAltF4.dangerous_keys ∧
    validate_action cfgOnlyAltF4 altF4Act = (true, "") := by
  decide

/-- C7 (amended): the action is rejected (and `execute_action` returns
`VALIDATION_ERROR`) whenever some deny-list entry is a case-insensitive
substring of `str(keys)` = `"['f4']"`; under the shipped config that entry
is `"f4"`, while the `"alt+f4"` entry never matches because modifiers are
not included in the matched string. -/
theorem c7_amended_substring_match :
    validate_action ACTION_TYPES_CONFIG altF4Act =
      (false, "Dangerous key combination detected: f4") ∧
    (execute_action ACTION_TYPES_CONFIG bkOk 5 altF4Act st0).1.error_code = "VALIDATION_ERROR" ∧
    (execute_action ACTION_TYPES_CONFIG bkOk 5 altF4Act st0).1.success = false ∧
    pyIn (pyLower "f4") (pyLower (pyStrKeys (.list ["f4"]))) = true ∧
    pyIn (pyLower "alt+f4") (pyLower (pyStrKeys (.list ["f4"]))) = false := by
  decide

/-! ## Claim C8 -/

/-- Counterexample to C8 as stated: a drag whose present `from_x = -5` and
`to_x = 20000` lie far outside `[0, 10000]` nevertheless passes validation —
the validator range-checks only `x` and `y`. -/
theorem c8_counterexample :
    dragOutAct.parameters = .mouseP none none (some (-5)) (some 3) (some 20000) (some 3)
      "left" 1 0 "up" 1 ∧
    validate_action ACTION_TYPES_CONFIG dragOutAct = (true, "") := by
  exact ⟨rfl, by decide⟩

/-- If the mouse-specific check fails, the whole validation fails (the two
preceding policy checks can only fail as well). -/
theorem validateTop_mouse_of_inner (cfg : TypesConfig)
    (recur : Option (ActionType → String → ActionParams → Bool × String))
    (st : String) (p : ActionParams)
    (h : (_validate_mouse_action st p).1 = false) :
    (validateTop cfg recur .mouse st p).1 = false := by
  show (if (!(cfg.policyFor .mouse).enabled) = true
      then ((false, "Action type '" ++ ActionType.mouse.value ++ "' is disabled") : Bool × String)
      else if (!(cfg.policyFor .mouse).actions.contains st) = true
      then (false, "Action subtype '" ++ st ++ "' is not allowed for type '"
        ++ ActionType.mouse.value ++ "'")
      else _validate_mouse_action st p).1 = false
  split
  · rfl
  · split
    · rfl
    · exact h

/-- C8 (amended): for click/move_to/drag, validation fails whenever a
*present `x` or `y`* lies outside `[0, 10000]`; for every mouse action an
invalid button fails validation; and the drag endpoints
`from_x, from_y, to_x, to_y` never influence the validation outcome. -/
theorem c8_amended_only_xy_checked :
    (∀ (st : String) (x y fx fy tx ty : Option Int) (b : String) (c : Int) (du : Rat)
      (sd : String) (sa : Int) (xv : Int),
      (st = "click" ∨ st = "move_to" ∨ st = "drag") → x = some xv →
      (xv < 0 ∨ xv > 10000) →
      (validate_action ACTION_TYPES_CONFIG (mkMouseAct st x y fx fy tx ty b c du sd sa)).1
        = false) ∧
    (∀ (st : String) (x y fx fy tx ty : Option Int) (b : String) (c : Int) (du : Rat)
      (sd : String) (sa : Int) (yv : Int),
      (st = "click" ∨ st = "move_to" ∨ st = "drag") → y = some yv →
      (yv < 0 ∨ yv > 10000) →
      (validate_action ACTION_TYPES_CONFIG (mkMouseAct st x y fx fy tx ty b c du sd sa)).1
        = false) ∧
    (∀ (st : String) (x y fx fy tx ty : Option Int) (b : String) (c : Int) (du : Rat)
      (sd : String) (sa : Int),
      ¬ b ∈ ["left", "right", "middle"] →
      (validate_action ACTION_TYPES_CONFIG (mkMouseAct st x y fx fy tx ty b c du sd sa)).1
        = false) ∧
    (∀ (st : String) (x y fx fy tx ty : Option Int) (b : String) (c : Int) (du : Rat)
      (sd : String) (sa : Int),
      validate_action ACTION_TYPES_CONFIG (mkMouseAct st x y fx fy tx ty b c du sd sa) =
      validate_action ACTION_TYPES_CONFIG (mkMouseAct st x y none none none none b c du sd sa)) := by
  refine ⟨?_, ?_, ?_, ?_⟩
  · intro st x y fx fy tx ty b c du sd sa xv hst hx hxv
    subst hx
    rw [validate_action_unfold]
    apply validateTop_mouse_of_inner
    show (_validate_mouse_action st (.mouseP (some xv) y fx fy tx ty b c du sd sa)).1 = false
    have hout : outOfRange (some xv) = true := by
      simp only [outOfRange]
      exact decide_eq_true hxv
    have hcond : ((st == "click" || st == "move_to" || st == "drag")
        && outOfRange (some xv)) = true := by
      rcases hst with h | h | h <;> subst h <;> simp [hout]
    simp only [_validate_mouse_action]
    rw [if_pos hcond]
  · intro st x y fx fy tx ty b c du sd sa yv hst hy hyv
    subst hy
    rw [validate_action_unfold]
    apply validateTop_mouse_of_inner
    show (_validate_mouse_action st (.mouseP x (some yv) fx fy tx ty b c du sd sa)).1 = false
    have hout : outOfRange (some yv) = true := by
      simp only [outOfRange]
      exact decide_eq_true hyv
    have hcond : ((st == "click" || st == "move_to" || st == "drag")
        && outOfRange (some yv)) = true := by
      rcases hst with h | h | h <;> subst h <;> simp [hout]
    simp only [_validate_mouse_action]
    split
    · rfl
    · simp [hcond]
  · intro st x y fx fy tx ty b c du sd sa hb
    rw [validate_action_unfold]
    apply validateTop_mouse_of_inner
    show (_validate_mouse_action st (.mouseP x y fx fy tx ty b c du sd sa)).1 = false
    have hbb : (["left", "right", "middle"].contains b) = false := by
      simp only [List.contains_cons, List.contains_nil, Bool.or_false]
      simp only [List.mem_cons, List.mem_singleton] at hb
      push_neg at hb
      simp [beq_iff_eq, hb.1, hb.2.1, hb.2.2]
    simp only [_validate_mouse_action]
    split
    · rfl
    · split
      · rfl
      · rw [hbb]
        rfl
  · intro st x y fx fy tx ty b c du sd sa
    rfl

/-- Witness for the amended C8 at a concrete out-of-range click. -/
theorem c8_amended_witness :
    (validate_action ACTION_TYPES_CONFIG
      (mkMouseAct "click" (some 20000) (some 5) none none none none "left" 1 0 "up" 1)).1
      = false := by
  have h := c8_amended_only_xy_checked.1 "click" (some 20000) (some 5) none none none none
    "left" 1 0 "up" 1 20000 (Or.inl rfl) rfl (by omega)
  exact h

/-! ## Claim C10 -/

/-- C10: a macro action whose sequence is unset or empty (with an enabled
subtype) passes validation with `(True, "")`, yet dispatching it always
returns a failure whose message is `"Macro sequence is empty"` (with no
error code). -/
theorem c10_empty_macro_validates_but_fails :
    ∀ (a : Action) (lc : Int) (dd : Rat) (bk : Backend) (fuel : Nat) (s : ExecutorSt)
      (r : ExecutionResultM) (s' : ExecutorSt),
    a.type = .macroA →
    (a.subtype = "execute" ∨ a.subtype = "sequence" ∨ a.subtype = "loop") →
    (a.parameters = .macroP none lc dd ∨ a.parameters = .macroP (some []) lc dd) →
    validate_action ACTION_TYPES_CONFIG a = (true, "") ∧
    (_execute_action_sync bk fuel a s = (r, s') →
      r.success = false ∧ r.message = "Macro sequence is empty" ∧ r.error_code = "") := by
  intro a lc dd bk fuel s r s' hty hst hp
  obtain ⟨aid, aty, ast, ap, an, ad, ae, arc, ato, acd⟩ := a
  simp only at hty hst hp
  subst hty
  constructor
  · rcases hst with h | h | h <;> subst h <;> rcases hp with h | h <;> subst h <;> rfl
  · intro hex
    have hcase : ∀ recur, syncTop bk recur
        ⟨aid, .macroA, ast, ap, an, ad, ae, arc, ato, acd⟩ s = (r, s') →
        r.success = false ∧ r.message = "Macro sequence is empty" ∧ r.error_code = "" := by
      intro recur hex
      unfold syncTop dispatchByType syncFinish _execute_macro_action at hex
      rcases hp with h | h <;> subst h <;> simp at hex <;>
        (obtain ⟨h1, h2⟩ := hex; subst h1; exact ⟨rfl, rfl, rfl⟩)
    cases fuel with
    | zero => exact hcase none hex
    | succ n => exact hcase _ hex

/-- Witness for C10 at a concrete empty-sequence macro. -/
theorem c10_witness :
    validate_action ACTION_TYPES_CONFIG macroEmptyAct = (true, "") ∧
    (_execute_action_sync bkOk 5 macroEmptyAct st0).1.message = "Macro sequence is empty" := by
  have h := c10_empty_macro_validates_but_fails macroEmptyAct 2 (1/10) bkOk 5 st0
    (_execute_action_sync bkOk 5 macroEmptyAct st0).1
    (_execute_action_sync bkOk 5 macroEmptyAct st0).2
    rfl (Or.inl rfl) (Or.inr rfl)
  exact ⟨h.1, (h.2 rfl).2.1⟩

/-! ## Claim C9 -/

/-- `ActionType(t.value)` recovers `t`. -/
theorem fromValue_value (t : ActionType) : ActionType.fromValue t.value = some t := by
  cases t <;> rfl

/-- Validation outcome only depends on the type-specific check once the two
policy checks are fixed. -/
theorem validateTop_congr (cfg : TypesConfig)
    (recur : Option (ActionType → String → ActionParams → Bool × String))
    (t : ActionType) (st : String) (p q : ActionParams)
    (h : typeSpecific cfg recur t st p = typeSpecific cfg recur t st q) :
    validateTop cfg recur t st p = validateTop cfg recur t st q := by
  show (if (!(cfg.policyFor t).enabled) = true
      then ((false, "Action type '" ++ t.value ++ "' is disabled") : Bool × String)
      else if (!(cfg.policyFor t).actions.contains st) = true
      then (false, "Action subtype '" ++ st ++ "' is not allowed for type '" ++ t.value ++ "'")
      else typeSpecific cfg recur t st p) =
    (if (!(cfg.policyFor t).enabled) = true
      then ((false, "Action type '" ++ t.value ++ "' is disabled") : Bool × String)
      else if (!(cfg.policyFor t).actions.contains st) = true
      then (false, "Action subtype '" ++ st ++ "' is not allowed for type '" ++ t.value ++ "'")
      else typeSpecific cfg recur t st q)
  rw [h]

/-- All-default mouse parameters validate exactly like a bare
`ActionParameters()` object (both pass every mouse check). -/
theorem mouse_defaults_inner (st : String) :
    _validate_mouse_action st (.mouseP none none none none none none "left" 1 0 "up" 1)
      = (true, "") := by
  simp [_validate_mouse_action, outOfRange]

/-- All-default keyboard parameters pass every keyboard check under the
shipped config (no dangerous key is a substring of the empty keys string). -/
theorem keyboard_defaults_inner (st : String) :
    _validate_keyboard_action ACTION_TYPES_CONFIG st (.keyboardP (.str "") "" none (1/20))
      = (true, "") := by
  simp only [_validate_keyboard_action]
  have h1 : (ACTION_TYPES_CONFIG.dangerous_keys.find?
      (fun dk => pyIn (pyLower dk) (pyLower (pyStrKeys (.str ""))))) = none := by decide
  have hscrut : (if (st == "key_press" || st == "key_combination") = true then
      ACTION_TYPES_CONFIG.dangerous_keys.find?
        (fun dk => pyIn (pyLower dk) (pyLower (pyStrKeys (.str "")))) else none) = none := by
    split
    · exact h1
    · rfl
  rw [hscrut]
  have h2 : (decide (("" : String).length > 1000)) = false := by decide
  simp [h2]

/-- C9: round-tripping any action through `to_dict` / `from_dict` (when the
reconstruction succeeds) preserves the validator verdict under the shipped
configuration. -/
theorem c9_roundtrip_preserves_validation :
    ∀ (a a' : Action), from_dict (to_dict a) = .ok a' →
    (validate_action ACTION_TYPES_CONFIG a').1 = (validate_action ACTION_TYPES_CONFIG a).1 := by
  intro a a' hrt
  obtain ⟨aid, ty, st, p, an, ad, ae, arc, ato, acd⟩ := a
  cases ty <;> cases p <;>
    simp only [to_dict, from_dict, ActionDict.type, ActionDict.subtype, ActionDict.parameters,
      ActionDict.id, ActionDict.name, ActionDict.description, ActionDict.enabled,
      ActionDict.requires_confirmation, ActionDict.timeout, ActionDict.created_date,
      fromValue_value, bind, Except.bind, Except.ok.injEq,
      reduceCtorEq] at hrt <;>
    subst hrt <;>
    try rfl
  case mouse.base =>
    exact congrArg Prod.fst (validateTop_congr ACTION_TYPES_CONFIG
      (some (validateCore ACTION_TYPES_CONFIG 999)) .mouse st _ .base
      (by show _validate_mouse_action st
            (.mouseP none none none none none none "left" 1 0 "up" 1)
            = _validate_mouse_action st .base
          rw [mouse_defaults_inner]
          rfl))
  case keyboard.base =>
    exact congrArg Prod.fst (validateTop_congr ACTION_TYPES_CONFIG
      (some (validateCore ACTION_TYPES_CONFIG 999)) .keyboard st _ .base
      (by show _validate_keyboard_action ACTION_TYPES_CONFIG st
            (.keyboardP (.str "") "" none (1/20))
            = _validate_keyboard_action ACTION_TYPES_CONFIG st .base
          rw [keyboard_defaults_inner]
          rfl))

/-- `clickAct` after a serialization round-trip (`__post_init__` fills the
empty `created_date`). -/
def roundClick : Action := { clickAct with created_date := defaultNow }

/-- Witness for C9 at a concrete mouse click round-trip. -/
theorem c9_witness :
    from_dict (to_dict clickAct) = .ok roundClick ∧
    (validate_action ACTION_TYPES_CONFIG roundClick).1 =
      (validate_action ACTION_TYPES_CONFIG clickAct).1 := by
  refine ⟨rfl, ?_⟩
  exact c9_roundtrip_preserves_validation clickAct roundClick rfl

/-! ## Claim C3

Per-call accounting of the synchronous dispatch primitive.  The ghost
counters advance in lockstep: every `_execute_action_sync` call (the macro
sub-dispatches are themselves such calls) produces exactly one result,
exactly one history append and exactly one callback invocation. -/

/-- The three lockstep observables advanced by `k`, flags preserved. -/
def Grows (s s' : ExecutorSt) (k : Nat) : Prop :=
  s'.syncCalls = s.syncCalls + k ∧ s'.appends = s.appends + k ∧
  s'.cbLog.length = s.cbLog.length + k ∧
  s'.on_action_executed = s.on_action_executed ∧ s'.on_action_failed = s.on_action_failed

theorem Grows.rfl0 (s : ExecutorSt) : Grows s s 0 := ⟨rfl, rfl, rfl, rfl, rfl⟩

theorem Grows.comp {s1 s2 s3 : ExecutorSt} {k m : Nat}
    (h1 : Grows s1 s2 k) (h2 : Grows s2 s3 m) : Grows s1 s3 (k + m) := by
  obtain ⟨a1, b1, c1, d1, e1⟩ := h1
  obtain ⟨a2, b2, c2, d2, e2⟩ := h2
  exact ⟨by omega, by omega, by omega, d2.trans d1, e2.trans e1⟩

/-- Accounting contract for a dispatcher: with both callbacks installed,
one call advances the three observables by `k + 1` (`k` is the number of
nested sub-dispatches), records its own callback last — `onExecuted` exactly
when the result succeeded — and appends its own history entry last. -/
def SyncAcc (exec : Action → ExecutorSt → ExecutionResultM × ExecutorSt) : Prop :=
  ∀ a s, s.on_action_executed = true → s.on_action_failed = true →
    ∃ k, Grows s (exec a s).2 (k + 1) ∧
      (exec a s).2.cbLog.getLast? = some ((exec a s).1.success, a.id) ∧
      (exec a s).2.execution_history.getLast? = some ⟨to_dict a, (exec a s).1⟩

/-- The recursive dispatcher handle, when present, satisfies the contract. -/
def RecurOk (recur : Option (Action → ExecutorSt → ExecutionResultM × ExecutorSt)) : Prop :=
  ∀ exec, recur = some exec → SyncAcc exec

/-- `_add_to_history` keeps the new entry last (the trim keeps the final
`maxHistory ≥ 1` entries). -/
theorem addToHistory_getLast (m : Nat) (hm : 1 ≤ m) (a : Action) (r : ExecutionResultM)
    (s : ExecutorSt) :
    (_add_to_history m a r s).execution_history.getLast? = some ⟨to_dict a, r⟩ := by
  have hh : (_add_to_history m a r s).execution_history =
      (if (s.execution_history ++ [(⟨to_dict a, r⟩ : HistoryEntry)]).length > m
        then pyTakeLast m (s.execution_history ++ [⟨to_dict a, r⟩])
        else s.execution_history ++ [⟨to_dict a, r⟩]) := rfl
  rw [hh]
  by_cases hc : (s.execution_history ++ [(⟨to_dict a, r⟩ : HistoryEntry)]).length > m
  · rw [if_pos hc]
    unfold pyTakeLast
    rw [if_neg (by omega : ¬ m = 0)]
    have hlen : (s.execution_history ++ [(⟨to_dict a, r⟩ : HistoryEntry)]).length
        = s.execution_history.length + 1 := by simp
    have hle : (s.execution_history ++ [(⟨to_dict a, r⟩ : HistoryEntry)]).length - m
        ≤ s.execution_history.length := by omega
    rw [List.drop_append_of_le_length hle]
    exact List.getLast?_concat _
  · rw [if_neg hc]
    exact List.getLast?_concat _

/-- The fields of the state `_add_to_history` does not touch. -/
theorem addToHistory_effects (m : Nat) (a : Action) (r : ExecutionResultM) (s : ExecutorSt) :
    (_add_to_history m a r s).syncCalls = s.syncCalls ∧
    (_add_to_history m a r s).appends = s.appends + 1 ∧
    (_add_to_history m a r s).cbLog = s.cbLog ∧
    (_add_to_history m a r s).on_action_executed = s.on_action_executed ∧
    (_add_to_history m a r s).on_action_failed = s.on_action_failed :=
  ⟨rfl, rfl, rfl, rfl, rfl⟩

/-- With both callbacks installed, the happy-path callback block records
exactly one invocation, tagged with the result's success flag. -/
theorem fireCallbacks_effects (a : Action) (r : ExecutionResultM) (s : ExecutorSt)
    (h1 : s.on_action_executed = true) (h2 : s.on_action_failed = true) :
    (fireCallbacks a r s).cbLog = s.cbLog ++ [(r.success, a.id)] ∧
    (fireCallbacks a r s).syncCalls = s.syncCalls ∧
    (fireCallbacks a r s).appends = s.appends ∧
    (fireCallbacks a r s).on_action_executed = s.on_action_executed ∧
    (fireCallbacks a r s).on_action_failed = s.on_action_failed ∧
    (fireCallbacks a r s).execution_history = s.execution_history := by
  unfold fireCallbacks
  cases hrs : r.success
  · simp [hrs, h2]
  · simp [hrs, h1]

/-- With the failure callback installed, the `except`-handler callback call
records exactly one failed invocation. -/
theorem fireFailed_effects (a : Action) (s : ExecutorSt) (h2 : s.on_action_failed = true) :
    (fireFailed a s).cbLog = s.cbLog ++ [(false, a.id)] ∧
    (fireFailed a s).syncCalls = s.syncCalls ∧
    (fireFailed a s).appends = s.appends ∧
    (fireFailed a s).on_action_executed = s.on_action_executed ∧
    (fireFailed a s).on_action_failed = s.on_action_failed ∧
    (fireFailed a s).execution_history = s.execution_history := by
  unfold fireFailed
  simp [h2]

/-- `syncFinish` produces exactly one result, one history append and one
callback invocation (its own, recorded last, matching the success flag). -/
theorem syncFinish_effects (a : Action) (out : Except String (Bool × String))
    (s1 : ExecutorSt) (h1 : s1.on_action_executed = true) (h2 : s1.on_action_failed = true) :
    (syncFinish a (out, s1)).2.syncCalls = s1.syncCalls ∧
    (syncFinish a (out, s1)).2.appends = s1.appends + 1 ∧
    (syncFinish a (out, s1)).2.cbLog
      = s1.cbLog ++ [((syncFinish a (out, s1)).1.success, a.id)] ∧
    (syncFinish a (out, s1)).2.on_action_executed = s1.on_action_executed ∧
    (syncFinish a (out, s1)).2.on_action_failed = s1.on_action_failed ∧
    (syncFinish a (out, s1)).2.execution_history.getLast?
      = some ⟨to_dict a, (syncFinish a (out, s1)).1⟩ := by
  cases out with
  | ok pr =>
    rcases pr with ⟨succ, msg⟩
    have hres : (syncFinish a (.ok (succ, msg), s1)).1
        = (⟨succ, msg, a.id, ""⟩ : ExecutionResultM) := rfl
    have hst : (syncFinish a (.ok (succ, msg), s1)).2
        = fireCallbacks a ⟨succ, msg, a.id, ""⟩
            (_add_to_history max_action_history a ⟨succ, msg, a.id, ""⟩ s1) := rfl
    rw [hres, hst]
    obtain ⟨ha1, ha2, ha3, ha4, ha5⟩ :=
      addToHistory_effects max_action_history a ⟨succ, msg, a.id, ""⟩ s1
    obtain ⟨hf1, hf2, hf3, hf4, hf5, hf6⟩ := fireCallbacks_effects a ⟨succ, msg, a.id, ""⟩
      (_add_to_history max_action_history a ⟨succ, msg, a.id, ""⟩ s1)
      (ha4.trans h1) (ha5.trans h2)
    refine ⟨hf2.trans ha1, hf3.trans ha2, ?_, hf4.trans ha4, hf5.trans ha5, ?_⟩
    · rw [hf1, ha3]
    · rw [hf6]
      exact addToHistory_getLast max_action_history (by decide) a ⟨succ, msg, a.id, ""⟩ s1
  | error e =>
    have hres : (syncFinish a (.error e, s1)).1
        = (⟨false, "Execution error: " ++ e, a.id, "EXECUTION_ERROR"⟩ : ExecutionResultM) := rfl
    have hst : (syncFinish a (.error e, s1)).2
        = fireFailed a (_add_to_history max_action_history a
            ⟨false, "Execution error: " ++ e, a.id, "EXECUTION_ERROR"⟩ s1) := rfl
    rw [hres, hst]
    obtain ⟨ha1, ha2, ha3, ha4, ha5⟩ := addToHistory_effects max_action_history a
      ⟨false, "Execution error: " ++ e, a.id, "EXECUTION_ERROR"⟩ s1
    obtain ⟨hf1, hf2, hf3, hf4, hf5, hf6⟩ := fireFailed_effects a
      (_add_to_history max_action_history a
        ⟨false, "Execution error: " ++ e, a.id, "EXECUTION_ERROR"⟩ s1) (ha5.trans h2)
    refine ⟨hf2.trans ha1, hf3.trans ha2, ?_, hf4.trans ha4, hf5.trans ha5, ?_⟩
    · rw [hf1, ha3]
    · rw [hf6]
      exact addToHistory_getLast max_action_history (by decide) a _ s1

/-- The mouse wrapper only bumps the backend-call counter. -/
theorem mouse_wrapper_snd (bk : Backend) (a : Action) (s : ExecutorSt) :
    (_execute_mouse_action bk a s).2 = { s with backendCalls := s.backendCalls + 1 } := by
  unfold _execute_mouse_action
  cases bk.mouse_pynput a.subtype a.parameters <;> rfl

/-- The keyboard wrapper only bumps the backend-call counter. -/
theorem keyboard_wrapper_snd (bk : Backend) (a : Action) (s : ExecutorSt) :
    (_execute_keyboard_action bk a s).2 = { s with backendCalls := s.backendCalls + 1 } := by
  unfold _execute_keyboard_action
  cases bk.keyboard_pynput a.subtype a.parameters <;> rfl

/-- The application wrapper leaves every observable except the backend-call
counter unchanged. -/
theorem application_wrapper_growth (bk : Backend) (a : Action) (s : ExecutorSt) :
    Grows s (_execute_application_action bk a s).2 0 := by
  unfold _execute_application_action _launch_application
  split
  · split
    · split
      · exact Grows.rfl0 s
      · cases bk.popen a.parameters <;> exact ⟨rfl, rfl, rfl, rfl, rfl⟩
    · exact Grows.rfl0 s
  · split
    · exact Grows.rfl0 s
    · split
      · exact Grows.rfl0 s
      · exact Grows.rfl0 s

/-- One pass of the macro loop body advances the observables by the nested
sub-dispatch total. -/
theorem macroSteps_growth
    (recur : Option (Action → ExecutorSt → ExecutionResultM × ExecutorSt))
    (hrec : RecurOk recur) :
    ∀ (l : List ActionDict) (i li ex : Nat) (s : ExecutorSt),
    s.on_action_executed = true → s.on_action_failed = true →
    ∃ k, Grows s (macroSteps recur l i li ex s).2 k := by
  intro l
  induction l with
  | nil =>
    intro i li ex s h1 h2
    exact ⟨0, Grows.rfl0 s⟩
  | cons d rest ih =>
    intro i li ex s h1 h2
    simp only [macroSteps]
    by_cases hstop : s.emergency_stop = true
    · rw [if_pos hstop]
      exact ⟨0, Grows.rfl0 s⟩
    · rw [if_neg hstop]
      cases hfd : from_dict d with
      | error e => exact ⟨0, Grows.rfl0 s⟩
      | ok sub =>
        cases hre : recur with
        | none => exact ⟨0, Grows.rfl0 s⟩
        | some subExec =>
          obtain ⟨k, hg, _, _⟩ := hrec subExec hre sub s h1 h2
          rcases hex : subExec sub s with ⟨r, s2⟩
          rw [hex] at hg
          dsimp only
          rw [hex]
          dsimp only
          cases hrs : r.success
          · exact ⟨k + 1, hg⟩
          · obtain ⟨k2, hg2⟩ := ih (i + 1) li (ex + 1) s2
              (hg.2.2.2.1.trans h1) (hg.2.2.2.2.trans h2)
            rw [hre] at hg2
            exact ⟨(k + 1) + k2, hg.comp hg2⟩

/-- The outer macro loop advances the observables by the nested total. -/
theorem macroLoops_growth
    (recur : Option (Action → ExecutorSt → ExecutionResultM × ExecutorSt))
    (hrec : RecurOk recur) (seq : List ActionDict) :
    ∀ (n li ex : Nat) (s : ExecutorSt),
    s.on_action_executed = true → s.on_action_failed = true →
    ∃ k, Grows s (macroLoops recur seq n li ex s).2 k := by
  intro n
  induction n with
  | zero =>
    intro li ex s h1 h2
    exact ⟨0, Grows.rfl0 s⟩
  | succ n ih =>
    intro li ex s h1 h2
    simp only [macroLoops]
    obtain ⟨k, hg⟩ := macroSteps_growth recur hrec seq 0 li ex s h1 h2
    rcases hms : macroSteps recur seq 0 li ex s with ⟨out, s2⟩
    rw [hms] at hg
    cases out with
    | inl early => exact ⟨k, hg⟩
    | inr ex' =>
      obtain ⟨k2, hg2⟩ := ih (li + 1) ex' s2 (hg.2.2.2.1.trans h1) (hg.2.2.2.2.trans h2)
      exact ⟨k + k2, hg.comp hg2⟩

/-- `_execute_macro_action` advances the observables by its sub-dispatch
total. -/
theorem macroAction_growth
    (recur : Option (Action → ExecutorSt → ExecutionResultM × ExecutorSt))
    (hrec : RecurOk recur) (a : Action) (s : ExecutorSt)
    (h1 : s.on_action_executed = true) (h2 : s.on_action_failed = true) :
    ∃ k, Grows s (_execute_macro_action recur a s).2 k := by
  unfold _execute_macro_action
  rcases a.parameters with _ | ⟨x, y, fx, fy, tx, ty, b, c, du, sd, sa⟩ |
    ⟨kv, txt, mo, iv⟩ | ⟨pa, ar, wd, wt, pn⟩ | ⟨oseq, lc, dd⟩
  · exact ⟨0, Grows.rfl0 s⟩
  · exact ⟨0, Grows.rfl0 s⟩
  · exact ⟨0, Grows.rfl0 s⟩
  · exact ⟨0, Grows.rfl0 s⟩
  · rcases oseq with _ | ls
    · exact ⟨0, Grows.rfl0 s⟩
    · rcases ls with _ | ⟨d, ds⟩
      · exact ⟨0, Grows.rfl0 s⟩
      · dsimp only
        obtain ⟨k, hg⟩ := macroLoops_growth recur hrec (d :: ds) lc.toNat 0 0 s h1 h2
        rcases hml : macroLoops recur (d :: ds) lc.toNat 0 0 s with ⟨rr, s2⟩
        rw [hml] at hg
        exact ⟨k, hg⟩

/-- The type-dispatch branch advances the observables by its sub-dispatch
total (zero except for macros). -/
theorem dispatch_growth (bk : Backend)
    (recur : Option (Action → ExecutorSt → ExecutionResultM × ExecutorSt))
    (hrec : RecurOk recur) (a : Action) (s : ExecutorSt)
    (h1 : s.on_action_executed = true) (h2 : s.on_action_failed = true) :
    ∃ k, Grows s (dispatchByType bk recur a s).2 k := by
  unfold dispatchByType
  rcases a.type with _ | _ | _ | _ | _
  · rcases hw : _execute_mouse_action bk a s with ⟨pr, s1⟩
    have hs1 : s1 = { s with backendCalls := s.backendCalls + 1 } := by
      have hsnd := mouse_wrapper_snd bk a s
      rw [hw] at hsnd
      exact hsnd
    subst hs1
    exact ⟨0, rfl, rfl, rfl, rfl, rfl⟩
  · rcases hw : _execute_keyboard_action bk a s with ⟨pr, s1⟩
    have hs1 : s1 = { s with backendCalls := s.backendCalls + 1 } := by
      have hsnd := keyboard_wrapper_snd bk a s
      rw [hw] at hsnd
      exact hsnd
    subst hs1
    exact ⟨0, rfl, rfl, rfl, rfl, rfl⟩
  · rcases hw : _execute_application_action bk a s with ⟨pr, s1⟩
    have hg := application_wrapper_growth bk a s
    rw [hw] at hg
    exact ⟨0, hg⟩
  · exact macroAction_growth recur hrec a s h1 h2
  · exact ⟨0, Grows.rfl0 s⟩

/-- `syncTop` satisfies the per-call accounting contract whenever its
recursive handle does. -/
theorem syncTop_acc (bk : Backend)
    (recur : Option (Action → ExecutorSt → ExecutionResultM × ExecutorSt))
    (hrec : RecurOk recur) : SyncAcc (syncTop bk recur) := by
  intro a s h1 h2
  have h1' : ({ s with syncCalls := s.syncCalls + 1 } : ExecutorSt).on_action_executed
      = true := h1
  have h2' : ({ s with syncCalls := s.syncCalls + 1 } : ExecutorSt).on_action_failed
      = true := h2
  obtain ⟨k, hg⟩ := dispatch_growth bk recur hrec a
    { s with syncCalls := s.syncCalls + 1 } h1' h2'
  rcases hd : dispatchByType bk recur a { s with syncCalls := s.syncCalls + 1 } with ⟨out, s1⟩
  rw [hd] at hg
  have h1s : s1.on_action_executed = true := hg.2.2.2.1.trans h1
  have h2s : s1.on_action_failed = true := hg.2.2.2.2.trans h2
  have heq : syncTop bk recur a s = syncFinish a (out, s1) := by
    unfold syncTop
    rw [hd]
  rw [heq]
  obtain ⟨hf1, hf2, hf3, hf4, hf5, hf6⟩ := syncFinish_effects a out s1 h1s h2s
  have hgs : s1.syncCalls = s.syncCalls + 1 + k := hg.1
  have hga : s1.appends = s.appends + k := hg.2.1
  have hgc : s1.cbLog.length = s.cbLog.length + k := hg.2.2.1
  refine ⟨k, ⟨?_, ?_, ?_, ?_, ?_⟩, ?_, hf6⟩
  · rw [hf1, hgs]
    omega
  · rw [hf2, hga]
    omega
  · rw [hf3, List.length_append, hgc]
    simp
    omega
  · exact hf4.trans hg.2.2.2.1
  · exact hf5.trans hg.2.2.2.2
  · rw [hf3]
    exact List.getLast?_concat _

/-- Every fueled instance of the dispatch primitive satisfies the
accounting contract. -/
theorem sync_acc (bk : Backend) : ∀ fuel, SyncAcc (_execute_action_sync bk fuel) := by
  intro fuel
  induction fuel with
  | zero => exact syncTop_acc bk none (fun e h => nomatch h)
  | succ n ih =>
    exact syncTop_acc bk (some (_execute_action_sync bk n))
      (fun e h => by
        injection h with h'
        exact h' ▸ ih)

/-- C3: every call to `_execute_action_sync` — with both callbacks
installed — produces exactly one `ExecutionResult`, performs exactly one
history append and exactly one callback invocation of its own (`k` counts
the nested macro sub-dispatches, each of which is itself one such call and
accounts for exactly one further append and one further callback); the
call's own callback is recorded last and is `onExecuted` exactly when
`success = true`, and its own `(action, result)` history entry is last.
This holds on the exception path as well (the `except` handler builds the
result, appends it and fires `onFailed`). -/
theorem c3_exactly_one_per_dispatch :
    ∀ (bk : Backend) (fuel : Nat) (a : Action) (s : ExecutorSt)
      (r : ExecutionResultM) (s' : ExecutorSt),
    s.on_action_executed = true → s.on_action_failed = true →
    _execute_action_sync bk fuel a s = (r, s') →
    (∃ k, s'.syncCalls = s.syncCalls + k + 1 ∧ s'.appends = s.appends + k + 1 ∧
      s'.cbLog.length = s.cbLog.length + k + 1) ∧
    s'.cbLog.getLast? = some (r.success, a.id) ∧
    s'.execution_history.getLast? = some ⟨to_dict a, r⟩ := by
  intro bk fuel a s r s' h1 h2 hex
  obtain ⟨k, hg, hcb, hh⟩ := sync_acc bk fuel a s h1 h2
  rw [hex] at hg hcb hh
  have g1 : s'.syncCalls = s.syncCalls + (k + 1) := hg.1
  have g2 : s'.appends = s.appends + (k + 1) := hg.2.1
  have g3 : s'.cbLog.length = s.cbLog.length + (k + 1) := hg.2.2.1
  have hcb' : s'.cbLog.getLast? = some (r.success, a.id) := hcb
  have hh' : s'.execution_history.getLast? = some ⟨to_dict a, r⟩ := hh
  exact ⟨⟨k, by omega, by omega, by omega⟩, hcb', hh'⟩

/-- Witness for C3 at a concrete click through a succeeding backend. -/
theorem c3_witness :
    (∃ k, (_execute_action_sync bkOk 1 clickAct st0).2.syncCalls = st0.syncCalls + k + 1 ∧
      (_execute_action_sync bkOk 1 clickAct st0).2.appends = st0.appends + k + 1 ∧
      (_execute_action_sync bkOk 1 clickAct st0).2.cbLog.length
        = st0.cbLog.length + k + 1) ∧
    (_execute_action_sync bkOk 1 clickAct st0).2.cbLog.getLast?
      = some ((_execute_action_sync bkOk 1 clickAct st0).1.success, clickAct.id) ∧
    (_execute_action_sync bkOk 1 clickAct st0).2.execution_history.getLast?
      = some ⟨to_dict clickAct, (_execute_action_sync bkOk 1 clickAct st0).1⟩ :=
  c3_exactly_one_per_dispatch bkOk 1 clickAct st0
    (_execute_action_sync bkOk 1 clickAct st0).1
    (_execute_action_sync bkOk 1 clickAct st0).2
    rfl rfl rfl

end GestureFlow
